import Mathlib

/-!
Shallow embedding of the NOVA-MD Telegram bot front-end (`bot.py`).

The embedding covers the pieces the verified claims are about: the
free-text dispatch table `handle_message`, the access-code and
phone-number processors, the backend-call helpers with their exception
fallbacks, the effect traces of the `status` and QR-connect handlers,
the webhook-bridge HTTP handlers, and the QR / pairing delivery
operations.

Modelling conventions:
* Backend JSON payloads are association lists of `JVal` values; reading
  a key with Python `dict.get` is `jLookup`, and Python truthiness of
  the result is `pyTruthy`.
* Outbound side effects (backend HTTP calls, chat replies, photo
  attachments) are recorded as explicit `Effect` lists; reply bodies
  are abstracted to stable template identifiers, since the claims only
  distinguish which template is rendered, not its full French text.
* Operations that can hit a Python exception take the outcome of the
  risky step as an `Except` argument; the Lean functions are total, so
  "never propagates an exception" is captured by construction and the
  claims are about the returned values.
* Python `str.upper` / `str.isdigit` are modelled on ASCII, which is
  exact for every string the access-code pattern or the phone check can
  accept.
-/

namespace NovaMD

/-- Minimal JSON value model for backend responses and webhook bodies. -/
inductive JVal
  | jnull
  | jbool (b : Bool)
  | jstr (s : String)
  | jnum (n : Int)
deriving DecidableEq

/-- JSON object: association list of string keys to values. -/
abbrev JObj := List (String × JVal)

/-- Model of Python `dict.get(k)`: the first binding of `k`, if any. -/
def jLookup (k : String) : JObj → Option JVal
  | [] => none
  | (k2, v) :: rest => if k2 = k then some v else jLookup k rest

/-- Python truthiness of a `dict.get` result: a missing key (`None`),
`False`, the empty string and `0` are falsy. -/
def pyTruthy : Option JVal → Bool
  | none => false
  | some JVal.jnull => false
  | some (JVal.jbool b) => b
  | some (JVal.jstr s) => !s.isEmpty
  | some (JVal.jnum n) => n != 0

/-- Whitespace characters removed by Python `str.strip()`. -/
def isPySpace (c : Char) : Bool :=
  c == ' ' || c == '\t' || c == '\n' || c == '\r' || c == '\x0b' || c == '\x0c'

/-- Model of Python `str.strip()`: drop leading and trailing whitespace. -/
def pyStrip (s : String) : String :=
  String.mk (((s.data.dropWhile isPySpace).reverse.dropWhile isPySpace).reverse)

/-- Model of Python `str.upper()` (ASCII-faithful). -/
def pyUpper (s : String) : String :=
  String.mk (s.data.map Char.toUpper)

/-- ASCII decimal digit. -/
def isAsciiDigit (c : Char) : Bool :=
  '0' ≤ c && c ≤ '9'

/-- Model of Python `str.isdigit()` restricted to ASCII: nonempty and
all characters are decimal digits. -/
def pyIsDigit (s : String) : Bool :=
  !s.isEmpty && s.data.all isAsciiDigit

/-- Uppercase letter or digit: one character of the `[A-Z0-9]` class. -/
def isUpperAlnum (c : Char) : Bool :=
  ('A' ≤ c && c ≤ 'Z') || ('0' ≤ c && c ≤ '9')

/-- Full match of the access-code regex `NOVA-[A-Z0-9]X7` anchored at
both ends: `NOVA-` followed by exactly 7 uppercase alphanumerics. -/
def novaMatch (s : String) : Bool :=
  decide (s.data.length = 12) &&
  decide (s.data.take 5 = "NOVA-".data) &&
  (s.data.drop 5).all isUpperAlnum

/-- Phone cleaning step of `process_phone_number`:
`replace('+', '').replace(' ', '').replace('-', '')`. -/
def cleanPhone (s : String) : String :=
  String.mk (s.data.filter (fun c => !(c == '+' || c == ' ' || c == '-')))

/-- Acceptance condition of `process_phone_number`: the cleaned number
is all digits and its length lies in `[8, 15]`.  (The source rejects on
`not isdigit() or len < 8 or len > 15`.) -/
def phoneValid (p : String) : Bool :=
  pyIsDigit p && decide (8 ≤ p.data.length) && decide (p.data.length ≤ 15)

/-- An observable outbound side effect of a handler: a backend HTTP
call, a chat reply (identified by message template), or a photo. -/
inductive Effect
  | http (endpoint : String)
  | reply (template : String)
  | photo (caption : String)
deriving DecidableEq

/-- Whether an effect is a backend HTTP call. -/
def isHttp : Effect → Bool
  | Effect.http _ => true
  | _ => false

/-- Whether an effect is a text reply. -/
def isReply : Effect → Bool
  | Effect.reply _ => true
  | _ => false

/-- Whether an effect is a photo attachment. -/
def isPhoto : Effect → Bool
  | Effect.photo _ => true
  | _ => false

/-- Number of backend HTTP calls in an effect trace. -/
def countHttp (es : List Effect) : Nat :=
  (es.filter isHttp).length

/-- Whether an effect trace contains any backend HTTP call. -/
def hasHttp (es : List Effect) : Bool :=
  es.any isHttp

/-- Number of text replies in an effect trace. -/
def countReply (es : List Effect) : Nat :=
  (es.filter isReply).length

/-- Number of photo attachments in an effect trace. -/
def countPhoto (es : List Effect) : Nat :=
  (es.filter isPhoto).length

/-- The per-chat `context.user_data` flags the dispatcher consults. -/
structure UserData where
  waiting_for_code : Bool
  waiting_for_phone : Bool
  pending_pairing : Bool
deriving DecidableEq

/-- Success of an `Except` outcome. -/
def exIsOk {ε α : Type} : Except ε α → Bool
  | Except.ok _ => true
  | Except.error _ => false

/-- `validate_access_code`: POSTs to `/api/auth/validate-code` and
returns the parsed JSON; any exception during the call yields the
fallback dict with `valid: False` and reason `Erreur système`.  The
argument is the outcome of the HTTP call. -/
def validate_access_code (httpResult : Except String JObj) : JObj :=
  match httpResult with
  | Except.ok o => o
  | Except.error _ => [("valid", JVal.jbool false), ("reason", JVal.jstr "Erreur système")]

/-- `check_user_access`: GETs `/api/auth/access/{chat_id}` and returns
the parsed JSON; any exception yields the fallback dict with
`hasAccess: False` and reason `Erreur système`. -/
def check_user_access (httpResult : Except String JObj) : JObj :=
  match httpResult with
  | Except.ok o => o
  | Except.error _ => [("hasAccess", JVal.jbool false), ("reason", JVal.jstr "Erreur système")]

/-- Whether a JSON value is a Python `str`. -/
def isJStr : JVal → Bool
  | JVal.jstr _ => true
  | _ => false

/-- Whether a JSON value is accepted by `timedelta(days=...)`: a
number.  Python booleans are `int` subclasses, so they count. -/
def isJNum : JVal → Bool
  | JVal.jnum _ => true
  | JVal.jbool _ => true
  | _ => false

/-- Whether the success-reply rendering of `process_access_code`
raises before the flag clear is reached.  With `valid` truthy, the
source reads `plan = get('plan', 'monthly')`, `duration =
get('duration', 30)` and `end_date = get('expiresAt')`, then:
inside a `try` guarding only the date formatting, a non-string
`end_date` (or a string `end_date` whose ISO parse fails, raising a
caught `ValueError`) leads to `timedelta(days=duration)`, which raises
an uncaught `TypeError` when `duration` is not a number (the `except`
block re-runs the same call); past the `try`, `plan.capitalize()`
raises an uncaught `AttributeError` when `plan` is not a string.
`dateParseOk` is the outcome of the `datetime.fromisoformat` library
call on the `expiresAt` string; it is consulted only when `expiresAt`
is a string. -/
def successRenderRaises (vr : JObj) (dateParseOk : Bool) : Bool :=
  let plan := (jLookup "plan" vr).getD (JVal.jstr "monthly")
  let duration := (jLookup "duration" vr).getD (JVal.jnum 30)
  let dateCrash :=
    match jLookup "expiresAt" vr with
    | some (JVal.jstr _) => !dateParseOk && !isJNum duration
    | _ => !isJNum duration
  dateCrash || !isJStr plan

/-- `process_access_code`: strip and uppercase the text; on a regex
mismatch reply with the format error and return (flag untouched).
Otherwise reply, call the backend validator and branch on `valid`:
the rejection reply always completes, but the success rendering can
raise on a malformed accepted payload (`successRenderRaises`), in
which case the handler dies before the final unconditional clear of
`waiting_for_code`.  Result: (effects so far, final flags, whether the
handler raised). -/
def process_access_code (text : String) (ud : UserData) (httpResult : Except String JObj)
    (dateParseOk : Bool) : List Effect × UserData × Bool :=
  let code := pyUpper (pyStrip text)
  if novaMatch code = false then
    ([Effect.reply "code_format_error"], ud, false)
  else
    let validation_result := validate_access_code httpResult
    if pyTruthy (jLookup "valid" validation_result) then
      if successRenderRaises validation_result dateParseOk then
        ([Effect.reply "code_validating", Effect.http "POST /api/auth/validate-code"],
         ud, true)
      else
        ([Effect.reply "code_validating", Effect.http "POST /api/auth/validate-code",
          Effect.reply "code_success"],
         { ud with waiting_for_code := false }, false)
    else
      ([Effect.reply "code_validating", Effect.http "POST /api/auth/validate-code",
        Effect.reply "code_invalid"],
       { ud with waiting_for_code := false }, false)

/-- `process_phone_number`: strip the text and remove `+`, spaces and
hyphens; on a failed format check reply with the error and return
(flags untouched); otherwise reply, call the backend session-creation
helper (whose result is `none` when that helper hit an exception) and
render the outcome reply, then clear `waiting_for_phone` and
`pending_pairing` unconditionally. -/
def process_phone_number (text : String) (ud : UserData) (sessionData : Option JObj) :
    List Effect × UserData :=
  let phone_number := cleanPhone (pyStrip text)
  if phoneValid phone_number = false then
    ([Effect.reply "phone_format_error"], ud)
  else
    let outcome :=
      match sessionData with
      | some r =>
        if pyTruthy (jLookup "success" r) then Effect.reply "pairing_requested"
        else Effect.reply "pairing_error"
      | none => Effect.reply "pairing_error"
    ([Effect.reply "pairing_generating", Effect.http "POST /api/sessions/create-with-phone", outcome],
     { ud with waiting_for_phone := false, pending_pairing := false })

/-- The action the free-text dispatcher resolves an incoming message to. -/
inductive Action
  | useCode
  | subscribeInfo
  | connectOptions
  | statusAction
  | helpAction
  | mainMenu
  | waSettings
  | connectQR
  | connectPairing
  | startTrial
  | processPhone
  | genCodeInfo
  | statsAction
  | upgradeAction
  | manageCommandsAction
  | showUsersAction
  | settingsToggle
  | processCode
  | drop
deriving DecidableEq

/-- The plain user-button captions of step 1 of the dispatch chain. -/
def userCaptions : List String :=
  ["🔑 Utiliser Code", "💎 S\x27abonner", "🔗 Connecter WhatsApp", "📊 Statut",
   "🆘 Aide", "📱 Menu Principal", "⚙️ Paramètres WhatsApp", "📱 QR Code",
   "🔢 Pairing Code", "🎯 Essai 24h Gratuit", "💎 Acheter Premium"]

/-- The admin-only button captions. -/
def adminCaptions : List String :=
  ["🔑 Générer Code", "📊 Statistiques", "🔄 Mise à Jour", "⚙️ Commandes",
   "👥 Utilisateurs"]

/-- The WhatsApp-settings toggle captions. -/
def settingsCaptions : List String :=
  ["🔇 Activer Mode Silencieux", "🔊 Désactiver Mode Silencieux",
   "🔒 Activer Mode Privé", "🔓 Désactiver Mode Privé", "👥 Gérer Accès"]

/-- The admin handlers bound to the admin-only captions. -/
def adminActions : List Action :=
  [Action.genCodeInfo, Action.statsAction, Action.upgradeAction,
   Action.manageCommandsAction, Action.showUsersAction]

/-- `handle_message`: the `if/elif` dispatch chain, transcribed in
source order.  User captions come first, then the `waiting_for_phone`
flag, then the admin captions (each guarded by `chat_id in ADMIN_IDS`,
here `isAdmin`), then the settings captions, then `waiting_for_code`;
an unmatched message is dropped.  `isAdmin` is the membership of the
sender's chat id in the `ADMIN_IDS` allow-list. -/
def handle_message (text : String) (isAdmin : Bool) (ud : UserData) : Action :=
  if text = "🔑 Utiliser Code" then Action.useCode
  else if text = "💎 S\x27abonner" then Action.subscribeInfo
  else if text = "🔗 Connecter WhatsApp" then Action.connectOptions
  else if text = "📊 Statut" then Action.statusAction
  else if text = "🆘 Aide" then Action.helpAction
  else if text = "📱 Menu Principal" then Action.mainMenu
  else if text = "⚙️ Paramètres WhatsApp" then Action.waSettings
  else if text = "📱 QR Code" then Action.connectQR
  else if text = "🔢 Pairing Code" then Action.connectPairing
  else if text = "🎯 Essai 24h Gratuit" then Action.startTrial
  else if text = "💎 Acheter Premium" then Action.subscribeInfo
  else if ud.waiting_for_phone = true then Action.processPhone
  else if text = "🔑 Générer Code" ∧ isAdmin = true then Action.genCodeInfo
  else if text = "📊 Statistiques" ∧ isAdmin = true then Action.statsAction
  else if text = "🔄 Mise à Jour" ∧ isAdmin = true then Action.upgradeAction
  else if text = "⚙️ Commandes" ∧ isAdmin = true then Action.manageCommandsAction
  else if text = "👥 Utilisateurs" ∧ isAdmin = true then Action.showUsersAction
  else if text = "🔇 Activer Mode Silencieux" then Action.settingsToggle
  else if text = "🔊 Désactiver Mode Silencieux" then Action.settingsToggle
  else if text = "🔒 Activer Mode Privé" then Action.settingsToggle
  else if text = "🔓 Désactiver Mode Privé" then Action.settingsToggle
  else if text = "👥 Gérer Accès" then Action.settingsToggle
  else if ud.waiting_for_code = true then Action.processCode
  else Action.drop

/-- `if existing_session and existing_session.get('status') == 'connected'`:
a present, nonempty session dict whose `status` field is `connected`. -/
def sessionConnected : Option JObj → Bool
  | none => false
  | some s => !s.isEmpty && (jLookup "status" s == some (JVal.jstr "connected"))

/-- Effect trace of the `status` handler.  The source reads
`access_check['hasAccess']` with bracket access: a response lacking the
key raises `KeyError` after the single access call, with no reply.
With the key present and truthy, the session fetch runs and the reply
renders `access_check.get('plan', 'N/A').capitalize()`, which raises
an uncaught `AttributeError` (no reply) when `plan` is present and not
a string.  With the key present and falsy, the denial reply is sent.
`acc` is the JSON returned by the access check. -/
def status_effects (acc : JObj) : List Effect :=
  Effect.http "GET /api/auth/access" ::
    (match jLookup "hasAccess" acc with
     | none => []
     | some hv =>
       if pyTruthy (some hv) then
         Effect.http "GET /api/sessions/user" ::
           (if isJStr ((jLookup "plan" acc).getD (JVal.jstr "N/A")) then
             [Effect.reply "status_premium"]
           else [])
       else
         [Effect.reply "status_no_access"])

/-- Effect trace of the `connect_whatsapp_qr` handler: access check;
`access_check['hasAccess']` raises `KeyError` (no reply) when the key
is missing; if present and falsy, one denial reply; otherwise session
fetch; if a session is already connected, one reply (the
`get_session_days` helper swallows its own exceptions); otherwise a
progress reply, the session-create call, and then — when the response
carries a `qr_code` key — the unguarded QR image build (`qrGen` is the
outcome of that `qrcode` library call; on failure the handler dies
with no further effect) followed by the instruction reply and the
photo, or an error reply when there is no usable response. -/
def connect_whatsapp_qr_effects (acc : JObj) (si : Option JObj) (created : Option JObj)
    (qrGen : Except String Unit) : List Effect :=
  Effect.http "GET /api/auth/access" ::
    (match jLookup "hasAccess" acc with
     | none => []
     | some hv =>
       if pyTruthy (some hv) = false then
         [Effect.reply "qr_no_access"]
       else
         Effect.http "GET /api/sessions/user" ::
           (if sessionConnected si then
             [Effect.reply "qr_already_active"]
           else
             Effect.reply "qr_generating" ::
               Effect.http "POST /api/sessions/create" ::
                 (match created with
                  | some c =>
                    if (jLookup "qr_code" c).isSome then
                      match qrGen with
                      | Except.ok _ => [Effect.reply "qr_instructions", Effect.photo "qr_image"]
                      | Except.error _ => []
                    else
                      [Effect.reply "qr_create_error"]
                  | none => [Effect.reply "qr_create_error"])))

/-- `send_qr_code` (the bridge delivery path): result flag and effect
trace.  `primary` is the outcome of generating the QR image and sending
the instruction message plus the photo; on its failure the raw payload
is re-sent as copyable text (`fallbackSend`), and only when that also
fails does the operation report failure. -/
def send_qr_code (primary : Except String Unit) (fallbackSend : Except String Unit) :
    Bool × List Effect :=
  match primary with
  | Except.ok _ => (true, [Effect.reply "qr_instructions", Effect.photo "qr_image"])
  | Except.error _ =>
    match fallbackSend with
    | Except.ok _ => (true, [Effect.reply "qr_text_fallback"])
    | Except.error _ => (false, [])

/-- Characters escaped by `escape_markdown` (`\_*[]()~`, backquote,
`>#+-=|`, both braces, `.` and `!`). -/
def mdEscapeChars : List Char :=
  ['\\', '_', '*', '[', ']', '(', ')', '~', Char.ofNat 96, '>', '#', '+', '-', '=',
   '|', '\x7b', '\x7d', '.', '!']

/-- `escape_markdown`: prefix every MarkdownV2 special character with a
backslash. -/
def escape_markdown (s : String) : String :=
  String.mk (s.data.flatMap (fun c => if c ∈ mdEscapeChars then ['\\', c] else [c]))

/-- The text `send_pairing_code` delivers to the chat.  The source
function receives `phone_number` as a parameter but interpolates only
the pairing code into the message. -/
def pairing_message (pairing_code : String) (phone_number : Option JVal) : String :=
  escape_markdown
    ("\n🔐 Connexion par Code de Pairing\n\n📱 Votre code de pairing:\n`"
      ++ pairing_code ++
      "`\n\nInstructions:\n1. Ouvrez WhatsApp sur votre téléphone\n2. Allez dans Paramètres → Appareils liés \n3. Sélectionnez Lier un appareil\n4. Entrez le code ci-dessus\n5. Attendez la confirmation\n\n⏱️ Ce code expire dans 5 minutes\n\nLa connexion se fera automatiquement!\n            ")

/-- HTTP response of a bridge endpoint: status code plus JSON body. -/
structure BridgeResponse where
  status : Nat
  body : JObj
deriving DecidableEq

/-- `POST /webhook/send-message`: `req` is the parsed request body (or
the exception raised while reading it), `send` the outcome of the
Telegram delivery, `ts` the timestamp string.  Missing or falsy
`user_id`/`message` yield 400; any exception yields 500. -/
def handle_send_message (req : Except String JObj) (send : Except String Bool) (ts : String) :
    BridgeResponse :=
  match req with
  | Except.error e => ⟨500, [("success", JVal.jbool false), ("error", JVal.jstr e)]⟩
  | Except.ok data =>
    if pyTruthy (jLookup "user_id" data) = false ∨ pyTruthy (jLookup "message" data) = false then
      ⟨400, [("success", JVal.jbool false), ("error", JVal.jstr "Données manquantes")]⟩
    else
      match send with
      | Except.error e => ⟨500, [("success", JVal.jbool false), ("error", JVal.jstr e)]⟩
      | Except.ok ok =>
        ⟨200, [("success", JVal.jbool ok),
               ("user_id", (jLookup "user_id" data).getD JVal.jnull),
               ("delivered", JVal.jbool ok),
               ("timestamp", JVal.jstr ts)]⟩

/-- `POST /webhook/send-qr`: requires truthy `user_id` and `qr_code`;
`session_id` is optional. -/
def handle_send_qr (req : Except String JObj) (send : Except String Bool) (ts : String) :
    BridgeResponse :=
  match req with
  | Except.error e => ⟨500, [("success", JVal.jbool false), ("error", JVal.jstr e)]⟩
  | Except.ok data =>
    if pyTruthy (jLookup "user_id" data) = false ∨ pyTruthy (jLookup "qr_code" data) = false then
      ⟨400, [("success", JVal.jbool false), ("error", JVal.jstr "Données manquantes")]⟩
    else
      match send with
      | Except.error e => ⟨500, [("success", JVal.jbool false), ("error", JVal.jstr e)]⟩
      | Except.ok ok =>
        ⟨200, [("success", JVal.jbool ok),
               ("user_id", (jLookup "user_id" data).getD JVal.jnull),
               ("session_id", (jLookup "session_id" data).getD JVal.jnull),
               ("timestamp", JVal.jstr ts)]⟩

/-- `POST /webhook/send-pairing`: requires truthy `user_id` and
`pairing_code`; `phone_number` is read but never required. -/
def handle_send_pairing (req : Except String JObj) (send : Except String Bool) (ts : String) :
    BridgeResponse :=
  match req with
  | Except.error e => ⟨500, [("success", JVal.jbool false), ("error", JVal.jstr e)]⟩
  | Except.ok data =>
    if pyTruthy (jLookup "user_id" data) = false ∨ pyTruthy (jLookup "pairing_code" data) = false then
      ⟨400, [("success", JVal.jbool false), ("error", JVal.jstr "Données manquantes")]⟩
    else
      match send with
      | Except.error e => ⟨500, [("success", JVal.jbool false), ("error", JVal.jstr e)]⟩
      | Except.ok ok =>
        ⟨200, [("success", JVal.jbool ok),
               ("user_id", (jLookup "user_id" data).getD JVal.jnull),
               ("pairing_code", (jLookup "pairing_code" data).getD JVal.jnull),
               ("timestamp", JVal.jstr ts)]⟩

/-! ## Theorems -/

/-- Claim C9 (confirmed): on any transport-level exception,
`validate_access_code` returns the dict `valid: False, reason: Erreur
système` and `check_user_access` returns `hasAccess: False, reason:
Erreur système`; in both dicts the decision key is present and falsy. -/
theorem C9_backend_exception_fallbacks (e1 e2 : String) :
    validate_access_code (Except.error e1) =
      [("valid", JVal.jbool false), ("reason", JVal.jstr "Erreur système")] ∧
    pyTruthy (jLookup "valid" (validate_access_code (Except.error e1))) = false ∧
    check_user_access (Except.error e2) =
      [("hasAccess", JVal.jbool false), ("reason", JVal.jstr "Erreur système")] ∧
    pyTruthy (jLookup "hasAccess" (check_user_access (Except.error e2))) = false :=
  ⟨rfl, rfl, rfl, rfl⟩

/-- Claim C8 (confirmed): when QR image generation or delivery fails,
`send_qr_code` does not raise (it is a total function of the two
outcomes): it attempts the text fallback, returns `true` exactly when
the fallback delivery succeeds, and the only effect it then produces is
the copyable-text reply. -/
theorem C8_qr_fallback (e : String) (fallbackSend : Except String Unit) :
    (send_qr_code (Except.error e) fallbackSend).1 = exIsOk fallbackSend ∧
    (send_qr_code (Except.error e) fallbackSend).2 =
      (if exIsOk fallbackSend then [Effect.reply "qr_text_fallback"] else []) := by
  cases fallbackSend <;> simp [send_qr_code, exIsOk]

/-- Counterexample to claim C1 as stated: a WhatsApp-settings toggle
caption IS routed to the pending-input phone processor when the
`waiting_for_phone` flag is set, because the dispatcher checks that
flag before the admin and settings captions. -/
theorem C1_settings_caption_to_phone_processor :
    "🔇 Activer Mode Silencieux" ∈ settingsCaptions ∧
    handle_message "🔇 Activer Mode Silencieux" false ⟨false, true, true⟩ =
      Action.processPhone := by
  decide

/-- Counterexample to claim C3 as stated: for the input
`" NOVA-ABC1234"` (leading space) the uppercased input does not match
`NOVA-[A-Z0-9]X7`, yet the processor issues the backend call, because
the source strips surrounding whitespace before uppercasing. -/
theorem C3_unstripped_input_cex :
    novaMatch (pyUpper " NOVA-ABC1234") = false ∧
    hasHttp (process_access_code " NOVA-ABC1234" ⟨true, false, false⟩ (Except.ok []) true).1 =
      true := by
  decide

/-- Counterexample to claim C4 as stated: for the input
`"12345678\n"`, removing only `+`, space and `-` leaves a trailing
newline (a non-digit), so the claim demands local rejection, yet the
processor issues the backend call, because the source strips
surrounding whitespace first. -/
theorem C4_unstripped_input_cex :
    phoneValid (cleanPhone "12345678\n") = false ∧
    hasHttp (process_phone_number "12345678\n" ⟨false, true, true⟩ none).1 = true := by
  decide

/-- Counterexample to claim C5 as stated: the `status` handler with
active access performs two backend HTTP calls, and the QR-connect
handler performs three backend HTTP calls and renders two text
replies — not "at most one call, exactly one reply". -/
theorem C5_multiple_calls_cex :
    countHttp (status_effects [("hasAccess", JVal.jbool true)]) = 2 ∧
    countHttp (connect_whatsapp_qr_effects [("hasAccess", JVal.jbool true)] none none
      (Except.ok ())) = 3 ∧
    countReply (connect_whatsapp_qr_effects [("hasAccess", JVal.jbool true)] none none
      (Except.ok ())) = 2 := by
  decide

/-- Counterexample to claim C2 as stated: the format-valid code
`NOVA-ABC1234` is accepted by the backend (`valid: true`), yet the
payload `plan: 5` makes `plan.capitalize()` raise before the clear
statement, so `waiting_for_code` stays set — the awaiting state does
not return to idle after this format-valid message. -/
theorem C2_render_crash_keeps_flag_cex :
    novaMatch (pyUpper (pyStrip "NOVA-ABC1234")) = true ∧
    pyTruthy (jLookup "valid" (validate_access_code
      (Except.ok [("valid", JVal.jbool true), ("plan", JVal.jnum 5)]))) = true ∧
    (process_access_code "NOVA-ABC1234" ⟨true, false, false⟩
      (Except.ok [("valid", JVal.jbool true), ("plan", JVal.jnum 5)]) true).2.2 = true ∧
    (process_access_code "NOVA-ABC1234" ⟨true, false, false⟩
      (Except.ok [("valid", JVal.jbool true), ("plan", JVal.jnum 5)]) true).2.1.waiting_for_code =
      true := by
  decide

/-- Claim C2 as amended: a format-invalid message leaves the flag
untouched (the user may retry).  A format-valid message clears
`waiting_for_phone` unconditionally, and clears `waiting_for_code`
whenever the handler completes — always on a backend rejection, and on
acceptance unless the success rendering raises on a malformed payload
(non-string `plan`, or non-numeric `duration` without a parseable
`expiresAt` string); when it raises, the handler dies before the clear
and the flags are left exactly as they were. -/
theorem C2_flag_clearing (text : String) (ud : UserData)
    (b1 : Except String JObj) (dp : Bool) (b2 : Option JObj) :
    ((process_access_code text ud b1 dp).2.2 = false →
      (process_access_code text ud b1 dp).2.1.waiting_for_code =
        (if novaMatch (pyUpper (pyStrip text)) then false else ud.waiting_for_code)) ∧
    ((process_access_code text ud b1 dp).2.2 = true →
      (process_access_code text ud b1 dp).2.1 = ud) ∧
    (pyTruthy (jLookup "valid" (validate_access_code b1)) = false →
      (process_access_code text ud b1 dp).2.2 = false) ∧
    (process_phone_number text ud b2).2.waiting_for_phone =
      (if phoneValid (cleanPhone (pyStrip text)) then false else ud.waiting_for_phone) := by
  refine ⟨?_, ?_, ?_, ?_⟩
  · cases h1 : novaMatch (pyUpper (pyStrip text))
    · simp [process_access_code, h1]
    · cases h2 : pyTruthy (jLookup "valid" (validate_access_code b1))
      · simp [process_access_code, h1, h2]
      · cases h3 : successRenderRaises (validate_access_code b1) dp <;>
          simp [process_access_code, h1, h2, h3]
  · cases h1 : novaMatch (pyUpper (pyStrip text))
    · simp [process_access_code, h1]
    · cases h2 : pyTruthy (jLookup "valid" (validate_access_code b1))
      · simp [process_access_code, h1, h2]
      · cases h3 : successRenderRaises (validate_access_code b1) dp <;>
          simp [process_access_code, h1, h2, h3]
  · cases h1 : novaMatch (pyUpper (pyStrip text)) <;>
      intro h2 <;> simp [process_access_code, h1, h2]
  · cases h : phoneValid (cleanPhone (pyStrip text)) <;> simp [process_phone_number, h]

/-- Witness for `C2_flag_clearing` at concrete inputs: a rejected code
completes without raising and the flag is cleared. -/
theorem C2_flag_clearing_witness :
    (process_access_code "NOVA-ABC1234" ⟨true, false, false⟩
        (Except.ok [("valid", JVal.jbool false)]) true).2.1.waiting_for_code =
      (if novaMatch (pyUpper (pyStrip "NOVA-ABC1234")) then false else true) :=
  (C2_flag_clearing "NOVA-ABC1234" ⟨true, false, false⟩
    (Except.ok [("valid", JVal.jbool false)]) true none).1 (by decide)

/-- Claim C3 as amended: the access-code processor strips surrounding
whitespace and uppercases the input; it issues the backend
validate-code call exactly when the result matches `NOVA-` plus seven
uppercase alphanumerics, and on a mismatch its only effect is the
format-error reply. -/
theorem C3_code_format_gate (text : String) (ud : UserData) (b : Except String JObj)
    (dp : Bool) :
    hasHttp (process_access_code text ud b dp).1 = novaMatch (pyUpper (pyStrip text)) ∧
    (novaMatch (pyUpper (pyStrip text)) = false →
      (process_access_code text ud b dp).1 = [Effect.reply "code_format_error"]) := by
  cases h : novaMatch (pyUpper (pyStrip text))
  · simp [process_access_code, h, hasHttp, isHttp]
  · cases h2 : pyTruthy (jLookup "valid" (validate_access_code b))
    · simp [process_access_code, h, h2, hasHttp, isHttp]
    · cases h3 : successRenderRaises (validate_access_code b) dp <;>
        simp [process_access_code, h, h2, h3, hasHttp, isHttp]

/-- Witness for `C3_code_format_gate` at the concrete input `"abc"`. -/
theorem C3_code_format_gate_witness :
    (process_access_code "abc" ⟨true, false, false⟩ (Except.ok []) true).1 =
      [Effect.reply "code_format_error"] :=
  (C3_code_format_gate "abc" ⟨true, false, false⟩ (Except.ok []) true).2 (by decide)

/-- Claim C4 as amended: the phone processor strips surrounding
whitespace and removes `+`, spaces and hyphens; it issues the backend
create-with-phone call exactly when the remainder is all digits of
length 8 to 15, and otherwise its only effect is the format-error
reply. -/
theorem C4_phone_format_gate (text : String) (ud : UserData) (b : Option JObj) :
    hasHttp (process_phone_number text ud b).1 = phoneValid (cleanPhone (pyStrip text)) ∧
    (phoneValid (cleanPhone (pyStrip text)) = false →
      (process_phone_number text ud b).1 = [Effect.reply "phone_format_error"]) := by
  cases h : phoneValid (cleanPhone (pyStrip text)) <;>
    simp [process_phone_number, h, hasHttp, isHttp]

/-- Witness for `C4_phone_format_gate` at the concrete input `"123"`. -/
theorem C4_phone_format_gate_witness :
    (process_phone_number "123" ⟨false, true, false⟩ none).1 =
      [Effect.reply "phone_format_error"] :=
  (C4_phone_format_gate "123" ⟨false, true, false⟩ none).2 (by decide)

/-- Helper for the dispatch-order claim: a user-button caption is
always consumed by its bound handler, never by a pending-input
processor. -/
theorem dispatch_user_caption_safe (text : String) (isAdmin : Bool) (ud : UserData)
    (h : text ∈ userCaptions) :
    handle_message text isAdmin ud ≠ Action.processPhone ∧
    handle_message text isAdmin ud ≠ Action.processCode := by
  simp only [userCaptions, List.mem_cons, List.not_mem_nil, or_false] at h
  rcases h with rfl|rfl|rfl|rfl|rfl|rfl|rfl|rfl|rfl|rfl|rfl <;> simp [handle_message]

/-- Helper for the dispatch-order claim: once past the user captions,
the `waiting_for_phone` flag wins over every later branch. -/
theorem dispatch_phone_priority (text : String) (isAdmin : Bool) (ud : UserData)
    (hp : ud.waiting_for_phone = true) (hn : text ∉ userCaptions) :
    handle_message text isAdmin ud = Action.processPhone := by
  simp only [userCaptions, List.mem_cons, List.not_mem_nil, or_false, not_or] at hn
  obtain ⟨n1, n2, n3, n4, n5, n6, n7, n8, n9, n10, n11⟩ := hn
  unfold handle_message
  rw [if_neg n1, if_neg n2, if_neg n3, if_neg n4, if_neg n5, if_neg n6, if_neg n7,
      if_neg n8, if_neg n9, if_neg n10, if_neg n11, if_pos hp]

/-- Helper for the dispatch-order claim: the access-code processor is
reached only when no caption matched and `waiting_for_phone` is off. -/
theorem dispatch_processCode_last (text : String) (isAdmin : Bool) (ud : UserData)
    (h : handle_message text isAdmin ud = Action.processCode) :
    ud.waiting_for_code = true ∧ ud.waiting_for_phone = false ∧
    text ∉ userCaptions ∧ text ∉ settingsCaptions ∧
    (isAdmin = true → text ∉ adminCaptions) := by
  unfold handle_message at h
  by_cases c1 : text = "🔑 Utiliser Code"
  · rw [if_pos c1] at h; exact absurd h (by decide)
  rw [if_neg c1] at h
  by_cases c2 : text = "💎 S\x27abonner"
  · rw [if_pos c2] at h; exact absurd h (by decide)
  rw [if_neg c2] at h
  by_cases c3 : text = "🔗 Connecter WhatsApp"
  · rw [if_pos c3] at h; exact absurd h (by decide)
  rw [if_neg c3] at h
  by_cases c4 : text = "📊 Statut"
  · rw [if_pos c4] at h; exact absurd h (by decide)
  rw [if_neg c4] at h
  by_cases c5 : text = "🆘 Aide"
  · rw [if_pos c5] at h; exact absurd h (by decide)
  rw [if_neg c5] at h
  by_cases c6 : text = "📱 Menu Principal"
  · rw [if_pos c6] at h; exact absurd h (by decide)
  rw [if_neg c6] at h
  by_cases c7 : text = "⚙️ Paramètres WhatsApp"
  · rw [if_pos c7] at h; exact absurd h (by decide)
  rw [if_neg c7] at h
  by_cases c8 : text = "📱 QR Code"
  · rw [if_pos c8] at h; exact absurd h (by decide)
  rw [if_neg c8] at h
  by_cases c9 : text = "🔢 Pairing Code"
  · rw [if_pos c9] at h; exact absurd h (by decide)
  rw [if_neg c9] at h
  by_cases c10 : text = "🎯 Essai 24h Gratuit"
  · rw [if_pos c10] at h; exact absurd h (by decide)
  rw [if_neg c10] at h
  by_cases c11 : text = "💎 Acheter Premium"
  · rw [if_pos c11] at h; exact absurd h (by decide)
  rw [if_neg c11] at h
  by_cases cp : ud.waiting_for_phone = true
  · rw [if_pos cp] at h; exact absurd h (by decide)
  rw [if_neg cp] at h
  by_cases a1 : text = "🔑 Générer Code" ∧ isAdmin = true
  · rw [if_pos a1] at h; exact absurd h (by decide)
  rw [if_neg a1] at h
  by_cases a2 : text = "📊 Statistiques" ∧ isAdmin = true
  · rw [if_pos a2] at h; exact absurd h (by decide)
  rw [if_neg a2] at h
  by_cases a3 : text = "🔄 Mise à Jour" ∧ isAdmin = true
  · rw [if_pos a3] at h; exact absurd h (by decide)
  rw [if_neg a3] at h
  by_cases a4 : text = "⚙️ Commandes" ∧ isAdmin = true
  · rw [if_pos a4] at h; exact absurd h (by decide)
  rw [if_neg a4] at h
  by_cases a5 : text = "👥 Utilisateurs" ∧ isAdmin = true
  · rw [if_pos a5] at h; exact absurd h (by decide)
  rw [if_neg a5] at h
  by_cases s1 : text = "🔇 Activer Mode Silencieux"
  · rw [if_pos s1] at h; exact absurd h (by decide)
  rw [if_neg s1] at h
  by_cases s2 : text = "🔊 Désactiver Mode Silencieux"
  · rw [if_pos s2] at h; exact absurd h (by decide)
  rw [if_neg s2] at h
  by_cases s3 : text = "🔒 Activer Mode Privé"
  · rw [if_pos s3] at h; exact absurd h (by decide)
  rw [if_neg s3] at h
  by_cases s4 : text = "🔓 Désactiver Mode Privé"
  · rw [if_pos s4] at h; exact absurd h (by decide)
  rw [if_neg s4] at h
  by_cases s5 : text = "👥 Gérer Accès"
  · rw [if_pos s5] at h; exact absurd h (by decide)
  rw [if_neg s5] at h
  by_cases wc : ud.waiting_for_code = true
  · refine ⟨wc, by simpa using cp, ?_, ?_, ?_⟩
    · simp only [userCaptions, List.mem_cons, List.not_mem_nil, or_false, not_or]
      exact ⟨c1, c2, c3, c4, c5, c6, c7, c8, c9, c10, c11⟩
    · simp only [settingsCaptions, List.mem_cons, List.not_mem_nil, or_false, not_or]
      exact ⟨s1, s2, s3, s4, s5⟩
    · intro ha
      simp only [adminCaptions, List.mem_cons, List.not_mem_nil, or_false, not_or]
      exact ⟨fun e => a1 ⟨e, ha⟩, fun e => a2 ⟨e, ha⟩, fun e => a3 ⟨e, ha⟩,
             fun e => a4 ⟨e, ha⟩, fun e => a5 ⟨e, ha⟩⟩
  · rw [if_neg wc] at h; exact absurd h (by decide)

/-- Claim C1 as amended: the dispatcher evaluates, in order, (1) the
user button captions, (2) the `waiting_for_phone` pending-input flag,
(3) the admin captions gated on the allow-list, (4) the settings toggle
captions, (5) the `waiting_for_code` flag.  A user caption is never
routed to a pending-input processor and the access-code processor runs
only when no caption at all matched, but a set `waiting_for_phone` flag
consumes admin and settings captions too. -/
theorem C1_dispatch_order (text : String) (isAdmin : Bool) (ud : UserData) :
    (text ∈ userCaptions →
      handle_message text isAdmin ud ≠ Action.processPhone ∧
      handle_message text isAdmin ud ≠ Action.processCode) ∧
    (ud.waiting_for_phone = true → text ∉ userCaptions →
      handle_message text isAdmin ud = Action.processPhone) ∧
    (handle_message text isAdmin ud = Action.processCode →
      ud.waiting_for_code = true ∧ ud.waiting_for_phone = false ∧
      text ∉ userCaptions ∧ text ∉ settingsCaptions ∧
      (isAdmin = true → text ∉ adminCaptions)) :=
  ⟨fun h => dispatch_user_caption_safe text isAdmin ud h,
   fun hp hn => dispatch_phone_priority text isAdmin ud hp hn,
   fun h => dispatch_processCode_last text isAdmin ud h⟩

/-- Witness for `C1_dispatch_order` at concrete inputs. -/
theorem C1_dispatch_order_witness :
    handle_message "🆘 Aide" true ⟨true, true, true⟩ ≠ Action.processPhone ∧
    handle_message "hello" true ⟨false, true, false⟩ = Action.processPhone :=
  ⟨((C1_dispatch_order "🆘 Aide" true ⟨true, true, true⟩).1 (by decide)).1,
   (C1_dispatch_order "hello" true ⟨false, true, false⟩).2.1 rfl (by decide)⟩

/-- Claim C6 (confirmed): an admin-only caption sent by a non-admin
never resolves to an admin handler; it is consumed by a pending-input
flag or dropped. -/
theorem C6_admin_gate (text : String) (ud : UserData) (h : text ∈ adminCaptions) :
    handle_message text false ud ∉ adminActions ∧
    (handle_message text false ud = Action.processPhone ∨
     handle_message text false ud = Action.processCode ∨
     handle_message text false ud = Action.drop) := by
  simp only [adminCaptions, List.mem_cons, List.not_mem_nil, or_false] at h
  rcases h with rfl|rfl|rfl|rfl|rfl <;> rcases ud with ⟨wc, wp, pp⟩ <;>
    cases wc <;> cases wp <;> cases pp <;> decide

/-- Witness for `C6_admin_gate` at a concrete admin caption. -/
theorem C6_admin_gate_witness :
    handle_message "📊 Statistiques" false ⟨false, false, false⟩ ∉ adminActions ∧
    (handle_message "📊 Statistiques" false ⟨false, false, false⟩ = Action.processPhone ∨
     handle_message "📊 Statistiques" false ⟨false, false, false⟩ = Action.processCode ∨
     handle_message "📊 Statistiques" false ⟨false, false, false⟩ = Action.drop) :=
  C6_admin_gate "📊 Statistiques" ⟨false, false, false⟩ (by decide)

/-- Claim C5 as amended: per inbound event the `status` handler
performs at most two backend calls and at most one reply, and the
QR-connect handler at most three backend calls, at most two text
replies and at most one image; when the access response carries the
`hasAccess` key with a falsy value, each performs exactly one call and
one reply.  (More than the single call of the original claim, and a
malformed backend payload — missing `hasAccess` key, non-string
`plan`, failing QR image build — kills the handler with fewer
replies.) -/
theorem C5_bounded_effects (acc : JObj) (si created : Option JObj)
    (qrGen : Except String Unit) :
    countHttp (status_effects acc) ≤ 2 ∧
    countReply (status_effects acc) ≤ 1 ∧
    countHttp (connect_whatsapp_qr_effects acc si created qrGen) ≤ 3 ∧
    countReply (connect_whatsapp_qr_effects acc si created qrGen) ≤ 2 ∧
    countPhoto (connect_whatsapp_qr_effects acc si created qrGen) ≤ 1 ∧
    (pyTruthy (jLookup "hasAccess" acc) = false → jLookup "hasAccess" acc ≠ none →
      countHttp (status_effects acc) = 1 ∧ countReply (status_effects acc) = 1 ∧
      countHttp (connect_whatsapp_qr_effects acc si created qrGen) = 1 ∧
      countReply (connect_whatsapp_qr_effects acc si created qrGen) = 1) := by
  rcases hA : jLookup "hasAccess" acc with _ | v
  · simp [status_effects, connect_whatsapp_qr_effects, hA, countHttp, countReply,
          countPhoto, isHttp, isReply, isPhoto]
  · cases hv : pyTruthy (some v)
    · simp [status_effects, connect_whatsapp_qr_effects, hA, hv, countHttp, countReply,
            countPhoto, isHttp, isReply, isPhoto]
    · cases hp : isJStr ((jLookup "plan" acc).getD (JVal.jstr "N/A")) <;>
      cases h2 : sessionConnected si <;>
      rcases created with _ | c <;>
      first
        | (rcases qrGen with e | u <;>
            cases h3 : (jLookup "qr_code" c).isSome <;>
            simp [status_effects, connect_whatsapp_qr_effects, hA, hv, hp, h2, h3,
                  countHttp, countReply, countPhoto, isHttp, isReply, isPhoto])
        | simp [status_effects, connect_whatsapp_qr_effects, hA, hv, hp, h2,
                countHttp, countReply, countPhoto, isHttp, isReply, isPhoto]

/-- Witness for `C5_bounded_effects`: with `hasAccess` present and
falsy, each handler performs exactly one call and one reply. -/
theorem C5_bounded_effects_witness :
    countHttp (status_effects [("hasAccess", JVal.jbool false)]) = 1 ∧
    countReply (status_effects [("hasAccess", JVal.jbool false)]) = 1 ∧
    countHttp (connect_whatsapp_qr_effects [("hasAccess", JVal.jbool false)] none none
      (Except.ok ())) = 1 ∧
    countReply (connect_whatsapp_qr_effects [("hasAccess", JVal.jbool false)] none none
      (Except.ok ())) = 1 :=
  (C5_bounded_effects [("hasAccess", JVal.jbool false)] none none
    (Except.ok ())).2.2.2.2.2 (by decide) (by decide)

/-- Claim C7 (confirmed): for each bridge endpoint, a missing (or
falsy) required field yields HTTP 400 with `success: false` and an
error string; an exception while reading the request or delivering the
message yields HTTP 500 with `success: false` and the exception text.
The handlers are total functions of the two outcomes, so no exception
propagates. -/
theorem C7_bridge_error_responses (data : JObj) (send : Except String Bool) (ts e : String) :
    ((pyTruthy (jLookup "user_id" data) = false ∨ pyTruthy (jLookup "message" data) = false) →
      handle_send_message (Except.ok data) send ts =
        ⟨400, [("success", JVal.jbool false), ("error", JVal.jstr "Données manquantes")]⟩) ∧
    (handle_send_message (Except.error e) send ts =
      ⟨500, [("success", JVal.jbool false), ("error", JVal.jstr e)]⟩) ∧
    (pyTruthy (jLookup "user_id" data) = true → pyTruthy (jLookup "message" data) = true →
      handle_send_message (Except.ok data) (Except.error e) ts =
        ⟨500, [("success", JVal.jbool false), ("error", JVal.jstr e)]⟩) ∧
    ((pyTruthy (jLookup "user_id" data) = false ∨ pyTruthy (jLookup "qr_code" data) = false) →
      handle_send_qr (Except.ok data) send ts =
        ⟨400, [("success", JVal.jbool false), ("error", JVal.jstr "Données manquantes")]⟩) ∧
    (handle_send_qr (Except.error e) send ts =
      ⟨500, [("success", JVal.jbool false), ("error", JVal.jstr e)]⟩) ∧
    (pyTruthy (jLookup "user_id" data) = true → pyTruthy (jLookup "qr_code" data) = true →
      handle_send_qr (Except.ok data) (Except.error e) ts =
        ⟨500, [("success", JVal.jbool false), ("error", JVal.jstr e)]⟩) ∧
    ((pyTruthy (jLookup "user_id" data) = false ∨
        pyTruthy (jLookup "pairing_code" data) = false) →
      handle_send_pairing (Except.ok data) send ts =
        ⟨400, [("success", JVal.jbool false), ("error", JVal.jstr "Données manquantes")]⟩) ∧
    (handle_send_pairing (Except.error e) send ts =
      ⟨500, [("success", JVal.jbool false), ("error", JVal.jstr e)]⟩) ∧
    (pyTruthy (jLookup "user_id" data) = true → pyTruthy (jLookup "pairing_code" data) = true →
      handle_send_pairing (Except.ok data) (Except.error e) ts =
        ⟨500, [("success", JVal.jbool false), ("error", JVal.jstr e)]⟩) := by
  refine ⟨fun h => ?_, rfl, fun h1 h2 => ?_, fun h => ?_, rfl, fun h1 h2 => ?_,
          fun h => ?_, rfl, fun h1 h2 => ?_⟩ <;>
    first
      | (rcases h with h | h <;> simp [handle_send_message, handle_send_qr, handle_send_pairing, h])
      | simp [handle_send_message, handle_send_qr, handle_send_pairing, h1, h2]

/-- Witness for `C7_bridge_error_responses`: the empty request body is
missing every required field and yields 400. -/
theorem C7_bridge_error_responses_witness :
    handle_send_message (Except.ok []) (Except.ok true) "t" =
      ⟨400, [("success", JVal.jbool false), ("error", JVal.jstr "Données manquantes")]⟩ :=
  (C7_bridge_error_responses [] (Except.ok true) "t" "e").1 (by decide)

/-- Claim C10 (confirmed): a send-pairing request carrying only
`user_id` and `pairing_code` is not rejected with 400, and the pairing
message delivered to the chat does not depend on `phone_number`. -/
theorem C10_pairing_phone_optional (uid code : String)
    (h1 : uid.isEmpty = false) (h2 : code.isEmpty = false)
    (send : Except String Bool) (ts : String) (p q : Option JVal) :
    (handle_send_pairing
        (Except.ok [("user_id", JVal.jstr uid), ("pairing_code", JVal.jstr code)])
        send ts).status ≠ 400 ∧
    pairing_message code p = pairing_message code q := by
  constructor
  · rcases send with e | b <;> simp [handle_send_pairing, jLookup, pyTruthy, h1, h2]
  · rfl

/-- Witness for `C10_pairing_phone_optional` at concrete inputs. -/
theorem C10_pairing_phone_optional_witness :
    (handle_send_pairing
        (Except.ok [("user_id", JVal.jstr "123"), ("pairing_code", JVal.jstr "ABCD-1234")])
        (Except.ok true) "t").status ≠ 400 ∧
    pairing_message "ABCD-1234" (some (JVal.jstr "555")) = pairing_message "ABCD-1234" none :=
  C10_pairing_phone_optional "123" "ABCD-1234" (by decide) (by decide) (Except.ok true) "t"
    (some (JVal.jstr "555")) none

end NovaMD

